import Mathlib

/-!
Verification of the cache-consistency layer of the Chat_platform repository
(app/core/cache.py, app/services/message_service.py, app/services/user_service.py,
config.py), as a shallow embedding in Lean 4.

Python values that flow through the cache are modelled by the inductive type
PyValue; JSON documents on the wire by JsonValue; the bytes stored in Redis by
SerBytes.  The Redis backing store is modelled by RedisState: a connection flag,
a ping-success flag, a fault-injection flag (opsFail = every data command
raises), and an association list from keys to stored bytes with their TTL.
Time is not modelled, so entries never expire on their own; the claims that
mention expiry all assume its absence.  Exceptions of the aioredis client are
modelled with Except; the CacheService operations catch them internally and
return plain values, so totality of the Lean functions mirrors the contract
that no exception escapes the service.
-/

/-- Model of a Python value that can be passed to CacheService.set.  Dict keys
are restricted to strings, which covers every value the repository caches
(ORM row dicts, lists of row dicts, tuples, ints, strings).  The obj
constructor stands for any other Python object; str() of it returns the
stored representation, which is what json.dumps falls back to through its
default=str argument. -/
inductive PyValue where
  | none : PyValue
  | bool : Bool → PyValue
  | int : Int → PyValue
  | str : String → PyValue
  | list : List PyValue → PyValue
  | tuple : List PyValue → PyValue
  | dict : List (String × PyValue) → PyValue
  | obj : String → PyValue

/-- Model of a JSON document, the structured wire format produced by
json.dumps in CacheService.set. -/
inductive JsonValue where
  | null : JsonValue
  | bool : Bool → JsonValue
  | num : Int → JsonValue
  | str : String → JsonValue
  | arr : List JsonValue → JsonValue
  | obj : List (String × JsonValue) → JsonValue

mutual

/-- Serialization performed by json.dumps(value, default=str) in
CacheService.set: null/bool/int/str map to their JSON forms, lists and tuples
both map to JSON arrays, dicts map to JSON objects, and any other object is
converted to the string produced by str() (the default=str fallback). -/
def jsonDumps : PyValue → JsonValue
  | .none => .null
  | .bool b => .bool b
  | .int n => .num n
  | .str s => .str s
  | .list xs => .arr (jsonDumpsList xs)
  | .tuple xs => .arr (jsonDumpsList xs)
  | .dict es => .obj (jsonDumpsEntries es)
  | .obj r => .str r

/-- Elementwise serialization of a Python list or tuple. -/
def jsonDumpsList : List PyValue → List JsonValue
  | [] => []
  | x :: xs => jsonDumps x :: jsonDumpsList xs

/-- Entrywise serialization of a Python dict with string keys. -/
def jsonDumpsEntries : List (String × PyValue) → List (String × JsonValue)
  | [] => []
  | (k, v) :: es => (k, jsonDumps v) :: jsonDumpsEntries es

end

mutual

/-- Deserialization performed by json.loads in CacheService.get: JSON arrays
always come back as Python lists and JSON objects as dicts, so tuples and
arbitrary objects do not survive a round trip. -/
def jsonToPy : JsonValue → PyValue
  | .null => .none
  | .bool b => .bool b
  | .num n => .int n
  | .str s => .str s
  | .arr xs => .list (jsonToPyList xs)
  | .obj es => .dict (jsonToPyEntries es)

/-- Elementwise deserialization of a JSON array. -/
def jsonToPyList : List JsonValue → List PyValue
  | [] => []
  | x :: xs => jsonToPy x :: jsonToPyList xs

/-- Entrywise deserialization of a JSON object. -/
def jsonToPyEntries : List (String × JsonValue) → List (String × PyValue)
  | [] => []
  | (k, v) :: es => (k, jsonToPy v) :: jsonToPyEntries es

end

mutual

/-- A Python value is JSON-faithful when json.loads(json.dumps(v)) returns a
value equal to v: everything except tuples (which come back as lists) and
non-JSON objects (which come back as their str() form). -/
def jsonFaithful : PyValue → Bool
  | .none => true
  | .bool _ => true
  | .int _ => true
  | .str _ => true
  | .list xs => jsonFaithfulList xs
  | .tuple _ => false
  | .dict es => jsonFaithfulEntries es
  | .obj _ => false

/-- Faithfulness of every element of a list. -/
def jsonFaithfulList : List PyValue → Bool
  | [] => true
  | x :: xs => jsonFaithful x && jsonFaithfulList xs

/-- Faithfulness of every value of a dict. -/
def jsonFaithfulEntries : List (String × PyValue) → Bool
  | [] => true
  | (_, v) :: es => jsonFaithful v && jsonFaithfulEntries es

end

/-- Bytes stored under a key in Redis, classified by how the two
deserializers of CacheService.get react to them: valid JSON text, a valid
pickle payload (which is never valid JSON text), or bytes that neither
deserializer accepts. -/
inductive SerBytes where
  | json : JsonValue → SerBytes
  | pickled : PyValue → SerBytes
  | raw : String → SerBytes

/-- Result of the json.loads attempt in CacheService.get (Option.none models
the JSONDecodeError / UnicodeDecodeError caught by the inner except clause). -/
def jsonLoads : SerBytes → Option PyValue
  | .json j => Option.some (jsonToPy j)
  | .pickled _ => Option.none
  | .raw _ => Option.none

/-- Result of the pickle.loads fallback in CacheService.get (Option.none
models the exception caught by the outer except clause). -/
def pickleLoads : SerBytes → Option PyValue
  | .pickled v => Option.some v
  | .json _ => Option.none
  | .raw _ => Option.none

/-- Python truthiness of a modelled value, as used by the read-through call
sites that guard with an if on the cached value. -/
def truthy : PyValue → Bool
  | .none => false
  | .bool b => b
  | .int n => decide (n ≠ 0)
  | .str s => decide (s ≠ "")
  | .list xs => !xs.isEmpty
  | .tuple xs => !xs.isEmpty
  | .dict es => !es.isEmpty
  | .obj _ => true

/-- settings.cache_default_ttl from config.py. -/
def cache_default_ttl : Int := 3600

/-- settings.cache_user_ttl from config.py. -/
def cache_user_ttl : Int := 1800

/-- settings.cache_message_ttl from config.py. -/
def cache_message_ttl : Int := 300

/-- settings.cache_conversation_ttl from config.py. -/
def cache_conversation_ttl : Int := 600

/-- The contents of the Redis database: an association list from key to the
stored bytes and the TTL passed to SETEX.  The TTL is recorded but no clock
is modelled, so entries do not expire by themselves. -/
abbrev Store := List (String × SerBytes × Int)

/-- State of the Redis backing store as seen by CacheManager/CacheService:
whether self.redis is set (connected), whether PING succeeds (pingOk),
whether every data command raises (opsFail, the fault-injection switch used
to model backing-store failures), and the stored entries. -/
structure RedisState where
  connected : Bool
  pingOk : Bool
  opsFail : Bool
  store : Store

/-- Replace the stored entries, keeping the connection flags. -/
def RedisState.withStore (st : RedisState) (s : Store) : RedisState :=
  ⟨st.connected, st.pingOk, st.opsFail, s⟩

/-- First stored bytes bound to a key, if any (Redis GET). -/
def storeLookup : Store → String → Option SerBytes
  | [], _ => Option.none
  | e :: rest, key => if e.1 = key then Option.some e.2.1 else storeLookup rest key

/-- Bind a key to bytes with a TTL, replacing any previous binding
(Redis SETEX). -/
def storeSet : Store → String → SerBytes → Int → Store
  | [], key, value, ttl => [(key, value, ttl)]
  | e :: rest, key, value, ttl =>
      if e.1 = key then (key, value, ttl) :: rest else e :: storeSet rest key value ttl

/-- Remove every entry whose key is in the given list (Redis DEL). -/
def storeDel : Store → List String → Store
  | [], _ => []
  | e :: rest, keys => if e.1 ∈ keys then storeDel rest keys else e :: storeDel rest keys

/-- Number of entries removed by storeDel, the integer Redis DEL returns. -/
def storeDelCount (s : Store) (keys : List String) : Int :=
  ((s.filter (fun e => e.1 ∈ keys)).length : Int)

/-- Redis glob matching for the patterns the repository uses, which contain
only literal characters and the * wildcard (a * matches any, possibly empty,
substring). -/
def globMatch : List Char → List Char → Bool
  | [], cs => cs.isEmpty
  | p :: ps, cs =>
    if p = '*' then cs.tails.any (fun suf => globMatch ps suf)
    else match cs with
      | [] => false
      | c :: cs' => p = c && globMatch ps cs'

/-- The PING command: raises unless pingOk. -/
def redisPing (st : RedisState) : Except Unit Unit :=
  if st.pingOk then Except.ok () else Except.error ()

/-- The GET command: raises when opsFail, otherwise returns the stored bytes. -/
def redisGet (st : RedisState) (key : String) : Except Unit (Option SerBytes) :=
  if st.opsFail then Except.error () else Except.ok (storeLookup st.store key)

/-- The SETEX command: raises when opsFail, otherwise stores the bytes. -/
def redisSetex (st : RedisState) (key : String) (ttl : Int) (value : SerBytes) :
    Except Unit RedisState :=
  if st.opsFail then Except.error ()
  else Except.ok (st.withStore (storeSet st.store key value ttl))

/-- The DEL command: raises when opsFail, otherwise removes the keys and
returns how many entries were removed. -/
def redisDel (st : RedisState) (keys : List String) : Except Unit (RedisState × Int) :=
  if st.opsFail then Except.error ()
  else Except.ok (st.withStore (storeDel st.store keys), storeDelCount st.store keys)

/-- The KEYS command: raises when opsFail, otherwise returns every stored key
matching the glob pattern. -/
def redisKeys (st : RedisState) (pattern : String) : Except Unit (List String) :=
  if st.opsFail then Except.error ()
  else Except.ok ((st.store.map Prod.fst).filter (fun k => globMatch pattern.data k.data))

/-- The EXISTS command: raises when opsFail, otherwise returns the count of
matching keys (0 or 1 here, since storeSet keeps keys unique). -/
def redisExists (st : RedisState) (key : String) : Except Unit Int :=
  if st.opsFail then Except.error ()
  else Except.ok (if (storeLookup st.store key).isSome then 1 else 0)

/-- CacheManager.is_available: False when self.redis is None, otherwise the
result of PING with every exception turned into False. -/
def CacheManager.is_available (st : RedisState) : Bool :=
  if !st.connected then false
  else
    match redisPing st with
    | Except.ok _ => true
    | Except.error _ => false

/-- CacheService.get.  The Python function returns the deserialized value or
None; PyValue.none plays the role of Python's None, so a stored JSON null is
indistinguishable from a miss, exactly as in the source.  Deserialization
tries json.loads first and falls back to pickle.loads; any remaining failure
is caught and turned into None. -/
def CacheService.get (st : RedisState) (key : String) : PyValue :=
  if CacheManager.is_available st = false then PyValue.none
  else
    match redisGet st key with
    | Except.error _ => PyValue.none
    | Except.ok Option.none => PyValue.none
    | Except.ok (Option.some value) =>
      match jsonLoads value with
      | Option.some v => v
      | Option.none =>
        match pickleLoads value with
        | Option.some v => v
        | Option.none => PyValue.none

/-- Python's ttl or settings.cache_default_ttl: None and 0 are falsy and fall
back to the default. -/
def ttlOrDefault : Option Int → Int
  | Option.none => cache_default_ttl
  | Option.some n => if n = 0 then cache_default_ttl else n

/-- CacheService.set: serializes (JSON by default, pickle otherwise), stores
with SETEX, and returns whether the write succeeded; unavailability and
exceptions degrade to False. -/
def CacheService.set (st : RedisState) (key : String) (value : PyValue)
    (ttl : Option Int) (serialize_method : String) : RedisState × Bool :=
  if CacheManager.is_available st = false then (st, false)
  else
    let serialized_value : SerBytes :=
      if serialize_method = "json" then SerBytes.json (jsonDumps value)
      else SerBytes.pickled value
    match redisSetex st key (ttlOrDefault ttl) serialized_value with
    | Except.error _ => (st, false)
    | Except.ok st2 => (st2, true)

/-- CacheService.delete: returns whether a key was removed; unavailability and
exceptions degrade to False. -/
def CacheService.delete (st : RedisState) (key : String) : RedisState × Bool :=
  if CacheManager.is_available st = false then (st, false)
  else
    match redisDel st [key] with
    | Except.error _ => (st, false)
    | Except.ok (st2, n) => (st2, decide (0 < n))

/-- CacheService.delete_pattern: KEYS then DEL of every match, returning the
number deleted; unavailability and exceptions degrade to 0. -/
def CacheService.delete_pattern (st : RedisState) (pattern : String) : RedisState × Int :=
  if CacheManager.is_available st = false then (st, 0)
  else
    match redisKeys st pattern with
    | Except.error _ => (st, 0)
    | Except.ok keys =>
      if keys.isEmpty then (st, 0)
      else
        match redisDel st keys with
        | Except.error _ => (st, 0)
        | Except.ok (st2, n) => (st2, n)

/-- CacheService.exists (named existsKey here because exists is a Lean
keyword): the Python code returns the raw Redis integer, whose truthiness
this Bool models; unavailability and exceptions degrade to False. -/
def CacheService.existsKey (st : RedisState) (key : String) : Bool :=
  if CacheManager.is_available st = false then false
  else
    match redisExists st key with
    | Except.error _ => false
    | Except.ok n => decide (n ≠ 0)

/-- CacheService.get_or_set.  The producer function is modelled by the value
it would return; the Nat in the result counts how many times it is invoked
(the async and sync branches of the source both invoke it exactly once on
the miss path).  The guard is Python's if cached_value is not None. -/
def CacheService.get_or_set (st : RedisState) (key : String) (producerResult : PyValue)
    (ttl : Option Int) : RedisState × PyValue × Nat :=
  match CacheService.get st key with
  | PyValue.none =>
      let r := CacheService.set st key producerResult ttl "json"
      (r.1, producerResult, 1)
  | v => (st, v, 0)

/-- CacheKeys.user_profile from app/core/cache.py. -/
def CacheKeys.user_profile (user_id : Int) : String :=
  "user_profile:" ++ toString user_id

/-- CacheKeys.user_by_username from app/core/cache.py. -/
def CacheKeys.user_by_username (username : String) : String :=
  "user_username:" ++ username

/-- CacheKeys.user_by_email from app/core/cache.py. -/
def CacheKeys.user_by_email (email : String) : String :=
  "user_email:" ++ email

/-- CacheKeys.message from app/core/cache.py. -/
def CacheKeys.message (message_id : Int) : String :=
  "message:" ++ toString message_id

/-- CacheKeys.conversation_messages from app/core/cache.py: the two user ids
are sorted ascending before interpolation, then the pagination arguments are
appended. -/
def CacheKeys.conversation_messages (user1_id user2_id limit offset : Int) : String :=
  "conversation:" ++ toString (min user1_id user2_id) ++ ":" ++ toString (max user1_id user2_id)
    ++ ":messages:" ++ toString limit ++ ":" ++ toString offset

/-- CacheKeys.user_messages from app/core/cache.py. -/
def CacheKeys.user_messages (user_id limit offset : Int) : String :=
  "user_messages:" ++ toString user_id ++ ":" ++ toString limit ++ ":" ++ toString offset

/-- The inline cache key of MessageService.get_unread_count. -/
def MessageService.unread_count_key (user_id : Int) : String :=
  "unread_count:" ++ toString user_id

/-- The inline cache key of MessageService.get_conversation_partners. -/
def MessageService.conversation_partners_key (user_id : Int) : String :=
  "conversation_partners:" ++ toString user_id

/-- The five patterns purged by CacheInvalidation.invalidate_message_cache. -/
def CacheInvalidation.invalidate_message_cache_patterns
    (message_id sender_id recipient_id : Int) : List String :=
  ["message:" ++ toString message_id,
   "conversation:" ++ toString sender_id ++ ":" ++ toString recipient_id ++ ":*",
   "conversation:" ++ toString recipient_id ++ ":" ++ toString sender_id ++ ":*",
   "user_messages:" ++ toString sender_id ++ ":*",
   "user_messages:" ++ toString recipient_id ++ ":*"]

/-- The four patterns purged by CacheInvalidation.invalidate_conversation_cache. -/
def CacheInvalidation.invalidate_conversation_cache_patterns
    (user1_id user2_id : Int) : List String :=
  ["conversation:" ++ toString user1_id ++ ":" ++ toString user2_id ++ ":*",
   "conversation:" ++ toString user2_id ++ ":" ++ toString user1_id ++ ":*",
   "user_messages:" ++ toString user1_id ++ ":*",
   "user_messages:" ++ toString user2_id ++ ":*"]

/-- A key is covered by a pattern set when at least one pattern glob-matches
it, which is exactly the condition for delete_pattern to purge it. -/
def coveredBy (patterns : List String) (key : String) : Bool :=
  patterns.any (fun p => globMatch p.data key.data)

/-- The cached derived views that a freshly created message from sender to
recipient affects, built from the repository's own key generators: the
conversation list for the pair at a given pagination, both users'
user_messages lists, the recipient's unread count, and both users'
conversation-partner lists. -/
def messageAffectedViewKeys (sender_id recipient_id limit offset : Int) : List String :=
  [CacheKeys.conversation_messages sender_id recipient_id limit offset,
   CacheKeys.user_messages sender_id limit offset,
   CacheKeys.user_messages recipient_id limit offset,
   MessageService.unread_count_key recipient_id,
   MessageService.conversation_partners_key sender_id,
   MessageService.conversation_partners_key recipient_id]

/-- Statement of claim C3 as written: the invalidation fired by create_message
covers every affected derived view with at least one purged pattern. -/
def MessageFanOutComplete : Prop :=
  ∀ message_id sender_id recipient_id limit offset : Int,
    ∀ key ∈ messageAffectedViewKeys sender_id recipient_id limit offset,
      coveredBy
        (CacheInvalidation.invalidate_message_cache_patterns message_id sender_id recipient_id)
        key = true

/-- The cached views deriving from read state for a pair, per claim C4: the
recipient's unread count, both users' conversation-partner lists, and the
conversation message list for the pair. -/
def readAffectedViewKeys (sender_id recipient_id limit offset : Int) : List String :=
  [MessageService.unread_count_key recipient_id,
   MessageService.conversation_partners_key sender_id,
   MessageService.conversation_partners_key recipient_id,
   CacheKeys.conversation_messages sender_id recipient_id limit offset]

/-- Statement of claim C4 as written: the invalidation fired by
mark_message_as_read covers every read-state-derived view with at least one
purged pattern. -/
def ReadFanOutComplete : Prop :=
  ∀ sender_id recipient_id limit offset : Int,
    ∀ key ∈ readAffectedViewKeys sender_id recipient_id limit offset,
      coveredBy
        (CacheInvalidation.invalidate_conversation_cache_patterns sender_id recipient_id)
        key = true

/-- The per-user key templates exactly as the spec words them in section 4.1,
for comparison with the generators of app/core/cache.py. -/
def SpecKeys.profile (user_id : Int) : String :=
  "profile:" ++ toString user_id

/-- The spec's username-lookup template. -/
def SpecKeys.by_username (username : String) : String :=
  "by-username:" ++ username

/-- The spec's email-lookup template. -/
def SpecKeys.by_email (email : String) : String :=
  "by-email:" ++ email

/-- MessageService.get_conversation_messages as a cache/DB orchestration:
dbMessages is the list of row dicts the database query would produce; the
returned Bool records whether the database was queried (False on a cache
hit).  The cached value is guarded with Python truthiness, and on the miss
path the database result is cached with the conversation TTL. -/
def MessageService.get_conversation_messages (st : RedisState) (dbMessages : PyValue)
    (user1_id user2_id limit offset : Int) : RedisState × PyValue × Bool :=
  let ck := CacheKeys.conversation_messages user1_id user2_id limit offset
  let cached := CacheService.get st ck
  if truthy cached then (st, cached, false)
  else
    let r := CacheService.set st ck dbMessages (Option.some cache_conversation_ttl) "json"
    (r.1, dbMessages, true)

/-- UserService.get_user_by_id as a cache/DB orchestration: dbUser is the row
the database query would produce (Option.none when no such user); the Bool
records whether the database was queried.  The cached value is guarded with
Python truthiness and a found row is cached with the user TTL. -/
def UserService.get_user_by_id (st : RedisState) (dbUser : Option PyValue)
    (user_id : Int) : RedisState × Option PyValue × Bool :=
  let ck := CacheKeys.user_profile user_id
  let cached := CacheService.get st ck
  if truthy cached then (st, Option.some cached, false)
  else
    match dbUser with
    | Option.some u =>
        ((CacheService.set st ck u (Option.some cache_user_ttl) "json").1, Option.some u, true)
    | Option.none => (st, Option.none, true)

/-- The externally visible steps of MessageService.create_message, in program
order. -/
inductive WriteEvent where
  | dbAdd : WriteEvent
  | dbCommit : WriteEvent
  | dbRefresh : WriteEvent
  | cacheSetOwn : String → WriteEvent
  | invalidatePattern : String → WriteEvent

/-- Phase of a write step: persistence steps first, then the refresh of the
message's own cache entry, then the derived-view invalidation. -/
def writePhase : WriteEvent → Nat
  | .dbAdd => 0
  | .dbCommit => 1
  | .dbRefresh => 2
  | .cacheSetOwn _ => 3
  | .invalidatePattern _ => 4

/-- The sequence of steps MessageService.create_message performs, in source
order: db.add, db.commit, db.refresh, cache_service.set of the new message's
own entry, then CacheInvalidation.invalidate_message_cache which issues one
delete_pattern per pattern, in list order. -/
def MessageService.create_message_trace (message_id sender_id recipient_id : Int) :
    List WriteEvent :=
  [WriteEvent.dbAdd, WriteEvent.dbCommit, WriteEvent.dbRefresh,
   WriteEvent.cacheSetOwn (CacheKeys.message message_id)]
  ++ (CacheInvalidation.invalidate_message_cache_patterns message_id sender_id recipient_id).map
      WriteEvent.invalidatePattern

/-- A glob pattern always matches itself: literal characters match themselves
and a * in the pattern can consume the * character of the subject. -/
theorem glob_self : ∀ p : List Char, globMatch p p = true := by
  intro p
  induction p with
  | nil => rfl
  | cons c cs ih =>
    by_cases h : c = '*'
    · subst h
      simp only [globMatch, if_pos rfl]
      refine List.any_eq_true.mpr ⟨cs, ?_, ih⟩
      cases cs <;> simp [List.tails]
    · simp [globMatch, h, ih]

/-- A pattern that is a literal lead followed by a final * matches any subject
that extends the same lead. -/
theorem glob_lead_star : ∀ pre rest : List Char,
    globMatch (pre ++ ['*']) (pre ++ rest) = true := by
  intro pre
  induction pre with
  | nil =>
    intro rest
    simp only [List.nil_append, globMatch, if_pos rfl]
    refine List.any_eq_true.mpr ⟨[], ?_, rfl⟩
    simp [List.mem_tails]
  | cons c cs ih =>
    intro rest
    by_cases h : c = '*'
    · subst h
      simp only [List.cons_append, globMatch, if_pos rfl]
      refine List.any_eq_true.mpr ⟨cs ++ rest, ?_, ih rest⟩
      cases cs <;> simp [List.tails]
    · simp [globMatch, h, ih]

/-- Peeling a shared star-free lead off pattern and subject does not change
the outcome of glob matching. -/
theorem glob_append_left : ∀ pre ps cs : List Char, '*' ∉ pre →
    globMatch (pre ++ ps) (pre ++ cs) = globMatch ps cs := by
  intro pre
  induction pre with
  | nil => intro ps cs _; rfl
  | cons c rest ih =>
    intro ps cs h
    have hc : c ≠ '*' := by intro hh; exact h (hh ▸ List.mem_cons_self c rest)
    have hrest : '*' ∉ rest := fun hm => h (List.mem_cons_of_mem c hm)
    simp [globMatch, hc, ih ps cs hrest]

/-- A non-wildcard pattern character that differs from the subject character
makes the match fail. -/
theorem glob_stop (a b : Char) (ps cs : List Char) (hne : a ≠ b) (hstar : a ≠ '*') :
    globMatch (a :: ps) (b :: cs) = false := by
  simp [globMatch, hstar, hne]

/-- A mismatch of literal characters after a shared star-free lead makes the
match fail. -/
theorem glob_lit_mismatch (pre : List Char) (a b : Char) (ps ks : List Char)
    (hstar : '*' ∉ pre) (hastar : a ≠ '*') (hne : a ≠ b) :
    globMatch (pre ++ a :: ps) (pre ++ b :: ks) = false := by
  rw [glob_append_left pre _ _ hstar]
  exact glob_stop a b ps ks hne hastar

/-- The conversation pattern of the invalidation routines matches the
conversation-messages key of the same ordered id pair at any pagination. -/
theorem conv_cover_helper (a b l o : String) :
    globMatch ("conversation:" ++ a ++ ":" ++ b ++ ":*").data
      ("conversation:" ++ a ++ ":" ++ b ++ ":messages:" ++ l ++ ":" ++ o).data = true := by
  have h := glob_lead_star ("conversation:".data ++ a.data ++ ":".data ++ b.data ++ [':'])
      ("messages:".data ++ l.data ++ ":".data ++ o.data)
  have e1 : ("conversation:" ++ a ++ ":" ++ b ++ ":*").data
      = ("conversation:".data ++ a.data ++ ":".data ++ b.data ++ [':']) ++ ['*'] := by
    simp [String.data_append, List.append_assoc]
  have e2 : ("conversation:" ++ a ++ ":" ++ b ++ ":messages:" ++ l ++ ":" ++ o).data
      = ("conversation:".data ++ a.data ++ ":".data ++ b.data ++ [':'])
        ++ ("messages:".data ++ l.data ++ ":".data ++ o.data) := by
    simp [String.data_append, List.append_assoc]
  rw [e1, e2]
  exact h

/-- The user_messages pattern of the invalidation routines matches the
user_messages key of the same user at any pagination. -/
theorem um_cover_helper (a l o : String) :
    globMatch ("user_messages:" ++ a ++ ":*").data
      ("user_messages:" ++ a ++ ":" ++ l ++ ":" ++ o).data = true := by
  have h := glob_lead_star ("user_messages:".data ++ a.data ++ [':'])
      (l.data ++ ":".data ++ o.data)
  have e1 : ("user_messages:" ++ a ++ ":*").data
      = ("user_messages:".data ++ a.data ++ [':']) ++ ['*'] := by
    simp [String.data_append, List.append_assoc]
  have e2 : ("user_messages:" ++ a ++ ":" ++ l ++ ":" ++ o).data
      = ("user_messages:".data ++ a.data ++ [':']) ++ (l.data ++ ":".data ++ o.data) := by
    simp [String.data_append, List.append_assoc]
  rw [e1, e2]
  exact h

/-- The message pattern never matches an unread_count key. -/
theorem message_vs_unread (x u : String) :
    globMatch ("message:" ++ x).data ("unread_count:" ++ u).data = false :=
  glob_stop 'm' 'u' (("essage:" ++ x).data) (("nread_count:" ++ u).data)
    (by decide) (by decide)

/-- The message pattern never matches a conversation_partners key. -/
theorem message_vs_partners (x u : String) :
    globMatch ("message:" ++ x).data ("conversation_partners:" ++ u).data = false :=
  glob_stop 'm' 'c' (("essage:" ++ x).data) (("onversation_partners:" ++ u).data)
    (by decide) (by decide)

/-- The conversation pattern never matches an unread_count key. -/
theorem conv_vs_unread (a b u : String) :
    globMatch ("conversation:" ++ a ++ ":" ++ b ++ ":*").data
      ("unread_count:" ++ u).data = false :=
  glob_stop 'c' 'u' (("onversation:" ++ a ++ ":" ++ b ++ ":*").data)
    (("nread_count:" ++ u).data) (by decide) (by decide)

/-- The conversation pattern never matches a conversation_partners key: both
start with the word conversation, but the pattern then requires a colon where
the key has an underscore. -/
theorem conv_vs_partners (a b u : String) :
    globMatch ("conversation:" ++ a ++ ":" ++ b ++ ":*").data
      ("conversation_partners:" ++ u).data = false :=
  glob_lit_mismatch ("conversation".data) ':' '_'
    ((a ++ ":" ++ b ++ ":*").data) (("partners:" ++ u).data)
    (by decide) (by decide) (by decide)

/-- The user_messages pattern never matches an unread_count key: both start
with the letter u, then the pattern requires s where the key has n. -/
theorem um_vs_unread (a u : String) :
    globMatch ("user_messages:" ++ a ++ ":*").data ("unread_count:" ++ u).data = false :=
  glob_lit_mismatch ['u'] 's' 'n'
    (("er_messages:" ++ a ++ ":*").data) (("read_count:" ++ u).data)
    (by decide) (by decide) (by decide)

/-- The user_messages pattern never matches a conversation_partners key. -/
theorem um_vs_partners (a u : String) :
    globMatch ("user_messages:" ++ a ++ ":*").data
      ("conversation_partners:" ++ u).data = false :=
  glob_stop 'u' 'c' (("ser_messages:" ++ a ++ ":*").data)
    (("onversation_partners:" ++ u).data) (by decide) (by decide)

/-- A key is covered as soon as one member pattern matches it. -/
theorem coveredBy_of_mem (patterns : List String) (p key : String)
    (hmem : p ∈ patterns) (h : globMatch p.data key.data = true) :
    coveredBy patterns key = true :=
  List.any_eq_true.mpr ⟨p, hmem, h⟩

mutual

/-- JSON-faithful values survive the json.dumps / json.loads round trip of
CacheService.set followed by CacheService.get. -/
theorem jsonRoundTrip : ∀ v : PyValue, jsonFaithful v = true → jsonToPy (jsonDumps v) = v
  | .none, _ => rfl
  | .bool _, _ => rfl
  | .int _, _ => rfl
  | .str _, _ => rfl
  | .list xs, h => by
    simp only [jsonDumps, jsonToPy, jsonFaithful] at *
    rw [jsonRoundTripList xs h]
  | .dict es, h => by
    simp only [jsonDumps, jsonToPy, jsonFaithful] at *
    rw [jsonRoundTripEntries es h]

/-- Round trip for every element of a list. -/
theorem jsonRoundTripList : ∀ xs : List PyValue, jsonFaithfulList xs = true →
    jsonToPyList (jsonDumpsList xs) = xs
  | [], _ => rfl
  | x :: xs, h => by
    simp only [jsonFaithfulList, Bool.and_eq_true] at h
    simp only [jsonDumpsList, jsonToPyList]
    rw [jsonRoundTrip x h.1, jsonRoundTripList xs h.2]

/-- Round trip for every entry of a dict. -/
theorem jsonRoundTripEntries : ∀ es : List (String × PyValue), jsonFaithfulEntries es = true →
    jsonToPyEntries (jsonDumpsEntries es) = es
  | [], _ => rfl
  | (k, v) :: es, h => by
    simp only [jsonFaithfulEntries, Bool.and_eq_true] at h
    simp only [jsonDumpsEntries, jsonToPyEntries]
    rw [jsonRoundTrip v h.1, jsonRoundTripEntries es h.2]

end

/-- Reading back the key just written by storeSet yields the written bytes. -/
theorem storeLookup_storeSet_self (s : Store) (key : String) (value : SerBytes) (ttl : Int) :
    storeLookup (storeSet s key value ttl) key = Option.some value := by
  induction s with
  | nil => simp [storeSet, storeLookup]
  | cons e rest ih =>
    by_cases h : e.1 = key <;> simp [storeSet, storeLookup, h, ih]

/-- Replacing the store keeps availability, which only reads the connection
flags. -/
theorem is_available_withStore (st : RedisState) (s : Store) :
    CacheManager.is_available (st.withStore s) = CacheManager.is_available st := rfl

/-- Replacing the store keeps the fault-injection flag. -/
theorem opsFail_withStore (st : RedisState) (s : Store) :
    (st.withStore s).opsFail = st.opsFail := rfl

/-- The store of a withStore state is the given store. -/
theorem store_withStore (st : RedisState) (s : Store) :
    (st.withStore s).store = s := rfl

/-- C2: the conversation cache key is symmetric in the two user ids, and both
orders produce the string conversation:{min}:{max}:messages:{limit}:{offset},
because CacheKeys.conversation_messages sorts the pair before interpolating. -/
theorem c2_conversation_key_symmetric (a b limit offset : Int) :
    CacheKeys.conversation_messages a b limit offset
      = CacheKeys.conversation_messages b a limit offset
    ∧ CacheKeys.conversation_messages a b limit offset
      = "conversation:" ++ toString (min a b) ++ ":" ++ toString (max a b)
        ++ ":messages:" ++ toString limit ++ ":" ++ toString offset := by
  constructor
  · simp [CacheKeys.conversation_messages, min_comm, max_comm]
  · rfl

/-- C9 counterexample: the per-user key generators of app/core/cache.py do not
produce the spec's templates profile:{id}, by-username:{username},
by-email:{email}; at user id 1, username alice and email a@b.c each generator
disagrees with the spec template. -/
theorem c9_counterexample :
    CacheKeys.user_profile 1 ≠ SpecKeys.profile 1
    ∧ CacheKeys.user_by_username "alice" ≠ SpecKeys.by_username "alice"
    ∧ CacheKeys.user_by_email "a@b.c" ≠ SpecKeys.by_email "a@b.c" := by
  refine ⟨?_, ?_, ?_⟩ <;> decide

/-- C9 amended: the per-user cache key templates actually produced by the code
are user_profile:{id}, user_username:{username} and user_email:{email}. -/
theorem c9_amended_key_templates (user_id : Int) (username email : String) :
    CacheKeys.user_profile user_id = "user_profile:" ++ toString user_id
    ∧ CacheKeys.user_by_username username = "user_username:" ++ username
    ∧ CacheKeys.user_by_email email = "user_email:" ++ email :=
  ⟨rfl, rfl, rfl⟩

/-- C3 counterexample: the invalidation fired by create_message is not
fan-out-complete; for sender 1, recipient 2 at pagination (50, 0), the
recipient's unread-count key unread_count:2 is an affected derived view that
no purged pattern matches. -/
theorem c3_counterexample : ¬ MessageFanOutComplete := by
  intro h
  have hmem : MessageService.unread_count_key 2 ∈ messageAffectedViewKeys 1 2 50 0 :=
    List.Mem.tail _ (List.Mem.tail _ (List.Mem.tail _ (List.Mem.head _)))
  exact absurd (h 10 1 2 50 0 (MessageService.unread_count_key 2) hmem) (by decide)

/-- C3 amended: the invalidation fired by create_message purges the message's
own entry, the conversation message list for the pair at every pagination and
both users' user_messages lists, but it never covers the recipient's
unread-count key nor either user's conversation-partners key, which are left
to expire by TTL. -/
theorem c3_amended_fanout (message_id sender_id recipient_id limit offset : Int) :
    coveredBy (CacheInvalidation.invalidate_message_cache_patterns message_id sender_id recipient_id)
      (CacheKeys.message message_id) = true
    ∧ coveredBy (CacheInvalidation.invalidate_message_cache_patterns message_id sender_id recipient_id)
      (CacheKeys.conversation_messages sender_id recipient_id limit offset) = true
    ∧ coveredBy (CacheInvalidation.invalidate_message_cache_patterns message_id sender_id recipient_id)
      (CacheKeys.user_messages sender_id limit offset) = true
    ∧ coveredBy (CacheInvalidation.invalidate_message_cache_patterns message_id sender_id recipient_id)
      (CacheKeys.user_messages recipient_id limit offset) = true
    ∧ coveredBy (CacheInvalidation.invalidate_message_cache_patterns message_id sender_id recipient_id)
      (MessageService.unread_count_key recipient_id) = false
    ∧ coveredBy (CacheInvalidation.invalidate_message_cache_patterns message_id sender_id recipient_id)
      (MessageService.conversation_partners_key sender_id) = false
    ∧ coveredBy (CacheInvalidation.invalidate_message_cache_patterns message_id sender_id recipient_id)
      (MessageService.conversation_partners_key recipient_id) = false := by
  refine ⟨?_, ?_, ?_, ?_, ?_, ?_, ?_⟩
  · exact coveredBy_of_mem _ _ _ (List.Mem.head _) (glob_self _)
  · rcases le_total sender_id recipient_id with h | h
    · refine coveredBy_of_mem _
        ("conversation:" ++ toString sender_id ++ ":" ++ toString recipient_id ++ ":*") _
        (List.Mem.tail _ (List.Mem.head _)) ?_
      simp only [CacheKeys.conversation_messages]
      rw [min_eq_left h, max_eq_right h]
      exact conv_cover_helper _ _ _ _
    · refine coveredBy_of_mem _
        ("conversation:" ++ toString recipient_id ++ ":" ++ toString sender_id ++ ":*") _
        (List.Mem.tail _ (List.Mem.tail _ (List.Mem.head _))) ?_
      simp only [CacheKeys.conversation_messages]
      rw [min_eq_right h, max_eq_left h]
      exact conv_cover_helper _ _ _ _
  · exact coveredBy_of_mem _ ("user_messages:" ++ toString sender_id ++ ":*") _
      (List.Mem.tail _ (List.Mem.tail _ (List.Mem.tail _ (List.Mem.head _))))
      (um_cover_helper _ _ _)
  · exact coveredBy_of_mem _ ("user_messages:" ++ toString recipient_id ++ ":*") _
      (List.Mem.tail _ (List.Mem.tail _ (List.Mem.tail _ (List.Mem.tail _ (List.Mem.head _)))))
      (um_cover_helper _ _ _)
  · simp only [coveredBy, CacheInvalidation.invalidate_message_cache_patterns,
      MessageService.unread_count_key, List.any_cons, List.any_nil,
      message_vs_unread, conv_vs_unread, um_vs_unread, Bool.or_self, Bool.or_false]
  · simp only [coveredBy, CacheInvalidation.invalidate_message_cache_patterns,
      MessageService.conversation_partners_key, List.any_cons, List.any_nil,
      message_vs_partners, conv_vs_partners, um_vs_partners, Bool.or_self, Bool.or_false]
  · simp only [coveredBy, CacheInvalidation.invalidate_message_cache_patterns,
      MessageService.conversation_partners_key, List.any_cons, List.any_nil,
      message_vs_partners, conv_vs_partners, um_vs_partners, Bool.or_self, Bool.or_false]

/-- C4 counterexample: the invalidation fired by mark_message_as_read does not
purge a pattern covering the recipient's unread count; for sender 1 and
recipient 2 the key unread_count:2 is matched by none of the four purged
patterns. -/
theorem c4_counterexample : ¬ ReadFanOutComplete := by
  intro h
  exact absurd (h 1 2 50 0 (MessageService.unread_count_key 2) (List.Mem.head _)) (by decide)

/-- C4 amended: after mark_message_as_read, the fired invalidation purges the
conversation message-list patterns for the pair (both directions) and both
users' user_messages patterns, but it covers neither the recipient's
unread-count key nor either user's conversation-partners key; those views
only refresh through their own TTLs. -/
theorem c4_amended_read_invalidation (sender_id recipient_id limit offset : Int) :
    coveredBy (CacheInvalidation.invalidate_conversation_cache_patterns sender_id recipient_id)
      (CacheKeys.conversation_messages sender_id recipient_id limit offset) = true
    ∧ coveredBy (CacheInvalidation.invalidate_conversation_cache_patterns sender_id recipient_id)
      (CacheKeys.user_messages sender_id limit offset) = true
    ∧ coveredBy (CacheInvalidation.invalidate_conversation_cache_patterns sender_id recipient_id)
      (CacheKeys.user_messages recipient_id limit offset) = true
    ∧ coveredBy (CacheInvalidation.invalidate_conversation_cache_patterns sender_id recipient_id)
      (MessageService.unread_count_key recipient_id) = false
    ∧ coveredBy (CacheInvalidation.invalidate_conversation_cache_patterns sender_id recipient_id)
      (MessageService.conversation_partners_key sender_id) = false
    ∧ coveredBy (CacheInvalidation.invalidate_conversation_cache_patterns sender_id recipient_id)
      (MessageService.conversation_partners_key recipient_id) = false := by
  refine ⟨?_, ?_, ?_, ?_, ?_, ?_⟩
  · rcases le_total sender_id recipient_id with h | h
    · refine coveredBy_of_mem _
        ("conversation:" ++ toString sender_id ++ ":" ++ toString recipient_id ++ ":*") _
        (List.Mem.head _) ?_
      simp only [CacheKeys.conversation_messages]
      rw [min_eq_left h, max_eq_right h]
      exact conv_cover_helper _ _ _ _
    · refine coveredBy_of_mem _
        ("conversation:" ++ toString recipient_id ++ ":" ++ toString sender_id ++ ":*") _
        (List.Mem.tail _ (List.Mem.head _)) ?_
      simp only [CacheKeys.conversation_messages]
      rw [min_eq_right h, max_eq_left h]
      exact conv_cover_helper _ _ _ _
  · exact coveredBy_of_mem _ ("user_messages:" ++ toString sender_id ++ ":*") _
      (List.Mem.tail _ (List.Mem.tail _ (List.Mem.head _))) (um_cover_helper _ _ _)
  · exact coveredBy_of_mem _ ("user_messages:" ++ toString recipient_id ++ ":*") _
      (List.Mem.tail _ (List.Mem.tail _ (List.Mem.tail _ (List.Mem.head _))))
      (um_cover_helper _ _ _)
  · simp only [coveredBy, CacheInvalidation.invalidate_conversation_cache_patterns,
      MessageService.unread_count_key, List.any_cons, List.any_nil,
      conv_vs_unread, um_vs_unread, Bool.or_self, Bool.or_false]
  · simp only [coveredBy, CacheInvalidation.invalidate_conversation_cache_patterns,
      MessageService.conversation_partners_key, List.any_cons, List.any_nil,
      conv_vs_partners, um_vs_partners, Bool.or_self, Bool.or_false]
  · simp only [coveredBy, CacheInvalidation.invalidate_conversation_cache_patterns,
      MessageService.conversation_partners_key, List.any_cons, List.any_nil,
      conv_vs_partners, um_vs_partners, Bool.or_self, Bool.or_false]

/-- C1: when the backing store is unavailable or every backing-store call
raises, each CacheService operation degrades instead of propagating: get
returns absent (None), set/delete/exists return False, delete_pattern returns
0, and get_or_set still runs the producer exactly once and returns its
result.  No exception escapes: each modelled operation is a total function
whose internal Except results are all caught. -/
theorem c1_backing_store_failure_degrades (st : RedisState) (key pattern : String)
    (value producerResult : PyValue) (ttl : Option Int)
    (h : CacheManager.is_available st = false ∨ st.opsFail = true) :
    CacheService.get st key = PyValue.none
    ∧ (CacheService.set st key value ttl "json").2 = false
    ∧ (CacheService.delete st key).2 = false
    ∧ CacheService.existsKey st key = false
    ∧ (CacheService.delete_pattern st pattern).2 = 0
    ∧ (CacheService.get_or_set st key producerResult ttl).2.1 = producerResult
    ∧ (CacheService.get_or_set st key producerResult ttl).2.2 = 1 := by
  rcases h with h | h
  · simp [CacheService.get, CacheService.set, CacheService.delete, CacheService.existsKey,
      CacheService.delete_pattern, CacheService.get_or_set, h]
  · by_cases hav : CacheManager.is_available st = false
    · simp [CacheService.get, CacheService.set, CacheService.delete, CacheService.existsKey,
        CacheService.delete_pattern, CacheService.get_or_set, hav]
    · simp [CacheService.get, CacheService.set, CacheService.delete, CacheService.existsKey,
        CacheService.delete_pattern, CacheService.get_or_set, hav,
        redisGet, redisSetex, redisDel, redisKeys, redisExists, h]

/-- C1 witness: the degraded results at a disconnected store. -/
theorem c1_witness :
    CacheService.get (⟨false, true, false, []⟩ : RedisState) "k" = PyValue.none
    ∧ (CacheService.set (⟨false, true, false, []⟩ : RedisState) "k" (PyValue.int 1)
        Option.none "json").2 = false
    ∧ (CacheService.delete (⟨false, true, false, []⟩ : RedisState) "k").2 = false
    ∧ CacheService.existsKey (⟨false, true, false, []⟩ : RedisState) "k" = false
    ∧ (CacheService.delete_pattern (⟨false, true, false, []⟩ : RedisState) "p").2 = 0
    ∧ (CacheService.get_or_set (⟨false, true, false, []⟩ : RedisState) "k" (PyValue.int 2)
        Option.none).2.1 = PyValue.int 2
    ∧ (CacheService.get_or_set (⟨false, true, false, []⟩ : RedisState) "k" (PyValue.int 2)
        Option.none).2.2 = 1 :=
  c1_backing_store_failure_degrades ⟨false, true, false, []⟩ "k" "p" (PyValue.int 1)
    (PyValue.int 2) Option.none (Or.inl rfl)

/-- C8: when the stored bytes for a key are retrieved successfully,
CacheService.get first attempts JSON deserialization, falls back to pickle
when JSON fails, and returns absent (None) instead of raising when both
fail. -/
theorem c8_deserialization_fallback (st : RedisState) (key : String) (value : SerBytes)
    (v w : PyValue)
    (hav : CacheManager.is_available st = true) (hop : st.opsFail = false)
    (hlk : storeLookup st.store key = Option.some value) :
    (jsonLoads value = Option.some v → CacheService.get st key = v)
    ∧ (jsonLoads value = Option.none → pickleLoads value = Option.some w →
        CacheService.get st key = w)
    ∧ (jsonLoads value = Option.none → pickleLoads value = Option.none →
        CacheService.get st key = PyValue.none) := by
  have hbase : CacheService.get st key
      = (match jsonLoads value with
         | Option.some v => v
         | Option.none =>
           match pickleLoads value with
           | Option.some v => v
           | Option.none => PyValue.none) := by
    simp [CacheService.get, hav, redisGet, hop, hlk]
  refine ⟨?_, ?_, ?_⟩
  · intro hj; rw [hbase, hj]
  · intro hj hp; rw [hbase, hj, hp]
  · intro hj hp; rw [hbase, hj, hp]

/-- C8 witness: a pickled payload that is not valid JSON is recovered through
the pickle fallback. -/
theorem c8_witness :
    CacheService.get
      (⟨true, true, false, [("k", SerBytes.pickled (PyValue.int 5), 60)]⟩ : RedisState) "k"
      = PyValue.int 5 :=
  (c8_deserialization_fallback
      ⟨true, true, false, [("k", SerBytes.pickled (PyValue.int 5), 60)]⟩ "k"
      (SerBytes.pickled (PyValue.int 5)) PyValue.none (PyValue.int 5) rfl rfl rfl).2.1 rfl rfl

/-- C5 counterexample: a populated, unexpired entry holding JSON null (the
serialization of a cached None) still causes get_or_set to invoke the
producer, because the source guard if cached_value is not None cannot tell a
stored null from a miss; the claimed zero invocations become one. -/
theorem c5_counterexample :
    (storeLookup
        (⟨true, true, false, [("k", SerBytes.json JsonValue.null, 60)]⟩ : RedisState).store
        "k").isSome = true
    ∧ (CacheService.get_or_set
        (⟨true, true, false, [("k", SerBytes.json JsonValue.null, 60)]⟩ : RedisState)
        "k" (PyValue.int 7) Option.none).2.2 = 1 :=
  ⟨rfl, rfl⟩

/-- C5 amended: get_or_set invokes the producer exactly once and returns its
result whenever the store holds no entry for the key, and invokes it zero
times, returning the cached value, whenever the populated entry deserializes
to a non-None value. -/
theorem c5_amended_get_or_set (st : RedisState) (key : String) (producerResult : PyValue)
    (ttl : Option Int) :
    (storeLookup st.store key = Option.none →
        (CacheService.get_or_set st key producerResult ttl).2.2 = 1
        ∧ (CacheService.get_or_set st key producerResult ttl).2.1 = producerResult)
    ∧ (CacheService.get st key ≠ PyValue.none →
        (CacheService.get_or_set st key producerResult ttl).2.2 = 0
        ∧ (CacheService.get_or_set st key producerResult ttl).2.1
          = CacheService.get st key) := by
  constructor
  · intro hlk
    have hget : CacheService.get st key = PyValue.none := by
      by_cases hav : CacheManager.is_available st = false
      · simp [CacheService.get, hav]
      · by_cases hop : st.opsFail = true
        · simp [CacheService.get, hav, redisGet, hop]
        · simp [CacheService.get, hav, redisGet, hop, hlk]
    simp [CacheService.get_or_set, hget]
  · intro hne
    rcases hval : CacheService.get st key with _ | b | n | s | xs | ys | es | r
    · exact absurd hval hne
    all_goals simp [CacheService.get_or_set, hval]

/-- C5 witness: one invocation on a cold key, zero on a populated non-None
entry. -/
theorem c5_witness :
    ((CacheService.get_or_set (⟨true, true, false, []⟩ : RedisState) "k" (PyValue.int 7)
        Option.none).2.2 = 1
      ∧ (CacheService.get_or_set (⟨true, true, false, []⟩ : RedisState) "k" (PyValue.int 7)
        Option.none).2.1 = PyValue.int 7)
    ∧ ((CacheService.get_or_set
        (⟨true, true, false, [("k", SerBytes.json (JsonValue.num 42), 60)]⟩ : RedisState)
        "k" (PyValue.int 7) Option.none).2.2 = 0
      ∧ (CacheService.get_or_set
        (⟨true, true, false, [("k", SerBytes.json (JsonValue.num 42), 60)]⟩ : RedisState)
        "k" (PyValue.int 7) Option.none).2.1
        = CacheService.get
          (⟨true, true, false, [("k", SerBytes.json (JsonValue.num 42), 60)]⟩ : RedisState)
          "k") :=
  ⟨(c5_amended_get_or_set ⟨true, true, false, []⟩ "k" (PyValue.int 7) Option.none).1 rfl,
   (c5_amended_get_or_set ⟨true, true, false, [("k", SerBytes.json (JsonValue.num 42), 60)]⟩
      "k" (PyValue.int 7) Option.none).2 (fun hc => PyValue.noConfusion hc)⟩

/-- C6 counterexample: set followed by get does not round-trip every cacheable
value; a tuple (as cached by get_conversation_partners) is serialized as a
JSON array and comes back as a list, which Python does not consider equal to
the tuple. -/
theorem c6_counterexample :
    CacheService.get
      ((CacheService.set (⟨true, true, false, []⟩ : RedisState) "k"
          (PyValue.tuple [PyValue.int 1, PyValue.int 2]) (Option.some 60) "json").1) "k"
      = PyValue.list [PyValue.int 1, PyValue.int 2]
    ∧ CacheService.get
      ((CacheService.set (⟨true, true, false, []⟩ : RedisState) "k"
          (PyValue.tuple [PyValue.int 1, PyValue.int 2]) (Option.some 60) "json").1) "k"
      ≠ PyValue.tuple [PyValue.int 1, PyValue.int 2] :=
  ⟨rfl, fun hc => PyValue.noConfusion hc⟩

/-- C6 amended: with the store available and healthy, set followed by get
returns a value equal to the one stored for every JSON-faithful value (no
tuples, no non-JSON objects); the write itself reports success. -/
theorem c6_amended_roundtrip (st : RedisState) (key : String) (v : PyValue) (ttl : Option Int)
    (hav : CacheManager.is_available st = true) (hop : st.opsFail = false)
    (hfa : jsonFaithful v = true) :
    (CacheService.set st key v ttl "json").2 = true
    ∧ CacheService.get (CacheService.set st key v ttl "json").1 key = v := by
  have hset : CacheService.set st key v ttl "json"
      = (st.withStore (storeSet st.store key (SerBytes.json (jsonDumps v)) (ttlOrDefault ttl)),
         true) := by
    simp [CacheService.set, hav, redisSetex, hop]
  rw [hset]
  refine ⟨rfl, ?_⟩
  have hav2 : CacheManager.is_available
      (st.withStore (storeSet st.store key (SerBytes.json (jsonDumps v)) (ttlOrDefault ttl)))
      = true := by
    rw [is_available_withStore]; exact hav
  simp [CacheService.get, hav2, redisGet, opsFail_withStore, hop, store_withStore,
    storeLookup_storeSet_self, jsonLoads, jsonRoundTrip v hfa]

/-- C6 witness: a list survives the round trip and the write succeeds. -/
theorem c6_witness :
    (CacheService.set (⟨true, true, false, []⟩ : RedisState) "k"
        (PyValue.list [PyValue.int 1, PyValue.str "a"]) (Option.some 60) "json").2 = true
    ∧ CacheService.get (CacheService.set (⟨true, true, false, []⟩ : RedisState) "k"
        (PyValue.list [PyValue.int 1, PyValue.str "a"]) (Option.some 60) "json").1 "k"
      = PyValue.list [PyValue.int 1, PyValue.str "a"] :=
  c6_amended_roundtrip ⟨true, true, false, []⟩ "k"
    (PyValue.list [PyValue.int 1, PyValue.str "a"]) (Option.some 60) rfl rfl rfl

/-- C7: within create_message the step order is fixed: any step of a strictly
later phase (persist steps, then the write of the message's own cache entry,
then each derived-view invalidation) occurs at a strictly later position of
the trace, so the own-entry cache write never precedes the database commit
and the invalidation never precedes the own-entry write. -/
theorem c7_write_ordering (message_id sender_id recipient_id : Int) (i j : Nat)
    (hi : i < (MessageService.create_message_trace message_id sender_id recipient_id).length)
    (hj : j < (MessageService.create_message_trace message_id sender_id recipient_id).length)
    (h : writePhase
          ((MessageService.create_message_trace message_id sender_id recipient_id).get ⟨i, hi⟩)
        < writePhase
          ((MessageService.create_message_trace message_id sender_id recipient_id).get ⟨j, hj⟩)) :
    i < j := by
  rcases Nat.lt_trichotomy i j with hij | hij | hij
  · exact hij
  · subst hij
    exact absurd h (lt_irrefl _)
  · exfalso
    have hp : ((MessageService.create_message_trace message_id sender_id recipient_id).map
        writePhase).Pairwise (· ≤ ·) := by
      have e : (MessageService.create_message_trace message_id sender_id recipient_id).map
          writePhase = [0, 1, 2, 3, 4, 4, 4, 4, 4] := rfl
      rw [e]; decide
    have hp2 : (MessageService.create_message_trace message_id sender_id recipient_id).Pairwise
        (fun x y => writePhase x ≤ writePhase y) := List.pairwise_map.mp hp
    have hm := List.pairwise_iff_get.mp hp2 ⟨j, hj⟩ ⟨i, hi⟩ hij
    exact absurd h (not_lt.mpr hm)

/-- C7 witness: the database commit (position 1) precedes the own-entry cache
write (position 3) in the trace of create_message. -/
theorem c7_witness : 1 < 3 :=
  c7_write_ordering 5 1 2 1 3 (by decide) (by decide) (by decide)

/-- C10: at the read-through call sites that guard with Python truthiness, a
falsy cached value is treated as a miss: get_conversation_messages queries
the database, returns its result and re-caches it (so a cached empty list
never produces a hit), and get_user_by_id likewise falls through to the
database; the empty list is falsy. -/
theorem c10_falsy_cache_miss (st : RedisState) (dbMessages : PyValue) (dbUser : Option PyValue)
    (user1_id user2_id limit offset user_id : Int) :
    (truthy (CacheService.get st
        (CacheKeys.conversation_messages user1_id user2_id limit offset)) = false →
      (MessageService.get_conversation_messages st dbMessages user1_id user2_id limit offset).2.2
        = true
      ∧ (MessageService.get_conversation_messages st dbMessages user1_id user2_id limit offset).2.1
        = dbMessages
      ∧ (CacheManager.is_available st = true → st.opsFail = false →
          storeLookup
            (MessageService.get_conversation_messages st dbMessages user1_id user2_id
                limit offset).1.store
            (CacheKeys.conversation_messages user1_id user2_id limit offset)
          = Option.some (SerBytes.json (jsonDumps dbMessages))))
    ∧ (truthy (CacheService.get st (CacheKeys.user_profile user_id)) = false →
      (UserService.get_user_by_id st dbUser user_id).2.2 = true)
    ∧ truthy (PyValue.list []) = false := by
  refine ⟨?_, ?_, rfl⟩
  · intro hf
    have hun : MessageService.get_conversation_messages st dbMessages user1_id user2_id
          limit offset
        = ((CacheService.set st (CacheKeys.conversation_messages user1_id user2_id limit offset)
              dbMessages (Option.some cache_conversation_ttl) "json").1, dbMessages, true) := by
      simp [MessageService.get_conversation_messages, hf]
    rw [hun]
    refine ⟨rfl, rfl, ?_⟩
    intro hav hop
    have hset : (CacheService.set st
          (CacheKeys.conversation_messages user1_id user2_id limit offset)
          dbMessages (Option.some cache_conversation_ttl) "json").1
        = st.withStore (storeSet st.store
            (CacheKeys.conversation_messages user1_id user2_id limit offset)
            (SerBytes.json (jsonDumps dbMessages))
            (ttlOrDefault (Option.some cache_conversation_ttl))) := by
      simp [CacheService.set, hav, redisSetex, hop]
    rw [hset, store_withStore]
    exact storeLookup_storeSet_self _ _ _ _
  · intro hf
    rcases dbUser with _ | u <;> simp [UserService.get_user_by_id, hf]

/-- C10 witness: a cached empty conversation list is a miss and triggers the
database query; a cold user lookup also queries the database. -/
theorem c10_witness :
    (MessageService.get_conversation_messages
        (⟨true, true, false,
          [("conversation:1:2:messages:50:0", SerBytes.json (JsonValue.arr []), 600)]⟩ :
          RedisState)
        (PyValue.list []) 1 2 50 0).2.2 = true
    ∧ (UserService.get_user_by_id (⟨true, true, false, []⟩ : RedisState) Option.none 7).2.2
      = true :=
  ⟨((c10_falsy_cache_miss
      ⟨true, true, false,
        [("conversation:1:2:messages:50:0", SerBytes.json (JsonValue.arr []), 600)]⟩
      (PyValue.list []) Option.none 1 2 50 0 7).1 (by decide)).1,
   (c10_falsy_cache_miss (⟨true, true, false, []⟩ : RedisState) (PyValue.list [])
      Option.none 1 2 50 0 7).2.1 (by decide)⟩
